import Mathlib

/-!
Verification development for the standalone SQLite storage module
(`standalone-sqlite.js`, class `StandaloneSQLiteStorage`).

The stateful JavaScript class is shallowly embedded as explicit state
passing over `StoreState`.  JavaScript numbers that the module stores are
modelled as `Int` (no claim depends on fractional values); absent fields
of a payload object are modelled as `none`; a fallible async operation is
modelled as `Except String`.  SQLite time values (`CURRENT_TIMESTAMP`,
ISO strings compared lexicographically) are modelled as `Int` instants
measured in days, so that the calendar-day subtraction done by
`cleanupOldData` is subtraction of the day count.
-/

namespace StandaloneSQLite

deriving instance DecidableEq for Except

/-- Payload accepted by `storeSensorData` (fields the source reads:
`data.rssi`, `data.temperature`, `data.T`, `data.weight`). -/
structure SensorPayload where
  rssi : Option Int
  temperature : Option Int
  T : Option Int
  weight : Option Int
deriving DecidableEq

/-- Payload accepted by `storeBatteryData` (fields read: `data.percentage`,
`data.battery_percentage`). -/
structure BatteryPayload where
  percentage : Option Int
  battery_percentage : Option Int
deriving DecidableEq

/-- Payload accepted by `storeEnvironmentData` (fields read:
`data.temperature`, `data.Temperature`, `data.humidity`, `data.Humidity`). -/
structure EnvPayload where
  temperature : Option Int
  Temperature : Option Int
  humidity : Option Int
  Humidity : Option Int
deriving DecidableEq

/-- The `raw_data` column: `JSON.stringify` of the original payload is
modelled as the payload itself, kept losslessly. -/
inductive RawData where
  | sensor : SensorPayload → RawData
  | battery : BatteryPayload → RawData
  | ant : String → String → Option Int → RawData
  | environment : EnvPayload → RawData
deriving DecidableEq

/-- One stored row.  This is the union of the per-MAC table schema
(`data_type, mac_address, timestamp, rssi, temperature,
battery_percentage, ant_mac, distance, weight, raw_data, created_at`) and
the `ENVIRONMENT_DATA` schema (`data_type, temperature, humidity,
timestamp, raw_data, created_at`); columns a schema lacks are `none`
(`mac_address` is `none` exactly for environment rows, whose schema has
no such column).  The `id` autoincrement column is not modelled (no claim
concerns it). -/
structure Row where
  data_type : String
  mac_address : Option String
  timestamp : Int
  rssi : Option Int
  temperature : Option Int
  battery_percentage : Option Int
  humidity : Option Int
  ant_mac : Option String
  distance : Option Int
  weight : Option Int
  raw_data : RawData
  created_at : Int
deriving DecidableEq

/-- One row of `biocv_metadata`.  The cached statistics columns
(`row_count`, `data_types`, `created_at`, `last_updated`) maintained by
`updateMetadata` are not modelled: no claim concerns them, and
`updateMetadata` never adds or removes a metadata row. -/
structure MetaEntry where
  table_name : String
  mac_address : String
deriving DecidableEq

/-- The state of a `StandaloneSQLiteStorage` instance together with its
SQLite database: the relevant config options, the in-memory
`createdTables` set (a list without meaningful order), the
`biocv_metadata` table, and the data tables (name, rows).
`auto_create_tables` is parsed by the constructor (line 23) but never
consulted by any operation of the source; it is carried here so that this
can be stated. -/
structure StoreState where
  isConnected : Bool
  autoCreateTables : Bool
  retentionDays : Nat
  createdTables : List String
  metadata : List MetaEntry
  tables : List (String × List Row)
deriving DecidableEq

/-- Options object taken by `queryData` / `queryAllData`
(`{ dataType, startDate, endDate, limit }`); each function applies its own
default for `limit`. -/
structure QueryOptions where
  dataType : Option String := none
  startDate : Option Int := none
  endDate : Option Int := none
  limit : Option Nat := none
deriving DecidableEq

/-- JavaScript `a || b` on an optional number: an absent field and the
number `0` are both falsy, so they fall through to `b`. -/
def jsNumOr (a b : Option Int) : Option Int :=
  match a with
  | some x => if x = 0 then b else some x
  | none => b

/-- `sanitizeMacForTableName`: `mac.replace(/:/g, '_').toUpperCase()`.
Since the pattern is the single character `:`, the global replace is a
per-character substitution, and `toUpperCase` acts per character on the
characters that occur in MAC addresses; the composite is expressed as one
character map. -/
def sanitizeMacForTableName (mac : String) : String :=
  String.mk (mac.data.map (fun c => (if c = ':' then '_' else c).toUpper))

/-- The characters a well-formed MAC-address key is built from:
hexadecimal digits in either case (codes 48-57, 97-102 and 65-70) and
the `:` separator. -/
def macChars : List Char :=
  (List.range 10).map (fun i => Char.ofNat (i + 48)) ++
  (List.range 6).map (fun i => Char.ofNat (i + 97)) ++
  (List.range 6).map (fun i => Char.ofNat (i + 65)) ++ [':']

/-- A valid key: every character is a hex digit or `:`. -/
def ValidMac (m : String) : Prop := ∀ c ∈ m.data, c ∈ macChars

instance (m : String) : Decidable (ValidMac m) :=
  List.decidableBAll _ m.data

/-- The canonical (upper-cased) form of a key: two strings denote the same
MAC address exactly when their canonical forms agree. -/
def macCanon (m : String) : String := String.mk (m.data.map Char.toUpper)

/-- Look a table up by name in the database (SQLite has a single table
namespace shared by the per-MAC tables and `ENVIRONMENT_DATA`). -/
def lookupTable : List (String × List Row) → String → Option (List Row)
  | [], _ => none
  | t :: ts, n => if t.1 = n then some t.2 else lookupTable ts n

/-- Append a row to the named table (`INSERT INTO tn ...`). -/
def insertInto (tabs : List (String × List Row)) (tn : String) (r : Row) :
    List (String × List Row) :=
  tabs.map (fun t => if t.1 == tn then (t.1, t.2 ++ [r]) else t)

/-- `createTableForMac`: returns at once when the name is in the
in-memory set; otherwise `CREATE TABLE IF NOT EXISTS` (a no-op when the
table already exists), `INSERT OR IGNORE` of the metadata row (a no-op
when a row with that `table_name` exists), and marks the name known.
Note that `config.auto_create_tables` is not consulted. -/
def createTableForMac (s : StoreState) (mac : String) : StoreState × String :=
  let tableName := sanitizeMacForTableName mac
  if tableName ∈ s.createdTables then (s, tableName)
  else
    let tables1 :=
      if s.tables.any (fun t => t.1 == tableName) then s.tables
      else s.tables ++ [(tableName, [])]
    let metadata1 :=
      if s.metadata.any (fun e => e.table_name == tableName) then s.metadata
      else s.metadata ++ [{ table_name := tableName, mac_address := mac }]
    ({ s with
        tables := tables1
        metadata := metadata1
        createdTables := s.createdTables ++ [tableName] },
     tableName)

/-- `data.rssi || null`. -/
def sensorRssi (d : SensorPayload) : Option Int := jsNumOr d.rssi none

/-- `data.temperature || data.T || null`. -/
def sensorTemperature (d : SensorPayload) : Option Int :=
  jsNumOr d.temperature (jsNumOr d.T none)

/-- `data.weight || null`. -/
def sensorWeight (d : SensorPayload) : Option Int := jsNumOr d.weight none

/-- `data.percentage || data.battery_percentage || null`. -/
def batteryPercentageOf (d : BatteryPayload) : Option Int :=
  jsNumOr d.percentage (jsNumOr d.battery_percentage none)

/-- `parseFloat(distance) || null`: `none` models an input whose
`parseFloat` is `NaN` (falsy), and a parsed `0` is falsy too. -/
def antDistance (v : Option Int) : Option Int := jsNumOr v none

/-- `data.temperature || data.Temperature || null`. -/
def envTemperature (d : EnvPayload) : Option Int :=
  jsNumOr d.temperature (jsNumOr d.Temperature none)

/-- `data.humidity || data.Humidity || null`. -/
def envHumidity (d : EnvPayload) : Option Int :=
  jsNumOr d.humidity (jsNumOr d.Humidity none)

/-- The row that `storeSensorData` inserts (the `values` array of lines
195–202, placed into the named columns; `timestamp` and `created_at`
default to the insertion instant `t`). -/
def sensorRowOf (mac : String) (data : SensorPayload) (t : Int) : Row :=
  { data_type := "sensor", mac_address := some mac, timestamp := t,
    rssi := sensorRssi data, temperature := sensorTemperature data,
    battery_percentage := none, humidity := none, ant_mac := none,
    distance := none, weight := sensorWeight data,
    raw_data := RawData.sensor data, created_at := t }

/-- The row that `storeBatteryData` inserts. -/
def batteryRowOf (mac : String) (data : BatteryPayload) (t : Int) : Row :=
  { data_type := "battery", mac_address := some mac, timestamp := t,
    rssi := none, temperature := none,
    battery_percentage := batteryPercentageOf data, humidity := none,
    ant_mac := none, distance := none, weight := none,
    raw_data := RawData.battery data, created_at := t }

/-- The row that `storeAntData` inserts (owned by `macTag`). -/
def antRowOf (macAnt macTag : String) (distance : Option Int) (t : Int) : Row :=
  { data_type := "ant", mac_address := some macTag, timestamp := t,
    rssi := none, temperature := none, battery_percentage := none,
    humidity := none, ant_mac := some macAnt,
    distance := antDistance distance, weight := none,
    raw_data := RawData.ant macAnt macTag distance, created_at := t }

/-- The row that `storeEnvironmentData` inserts into `ENVIRONMENT_DATA`. -/
def envRowOf (data : EnvPayload) (t : Int) : Row :=
  { data_type := "environment", mac_address := none, timestamp := t,
    rssi := none, temperature := envTemperature data,
    battery_percentage := none, humidity := envHumidity data,
    ant_mac := none, distance := none, weight := none,
    raw_data := RawData.environment data, created_at := t }

/-- `storeSensorData(mac, data)` at instant `t`.  `updateMetadata` only
rewrites cached statistics columns, which are not modelled. -/
def storeSensorData (s : StoreState) (mac : String) (data : SensorPayload) (t : Int) :
    Except String StoreState :=
  if s.isConnected then
    let created := createTableForMac s mac
    .ok { created.1 with
            tables := insertInto created.1.tables created.2 (sensorRowOf mac data t) }
  else .error "Database not connected"

/-- `storeBatteryData(mac, data)` at instant `t`. -/
def storeBatteryData (s : StoreState) (mac : String) (data : BatteryPayload) (t : Int) :
    Except String StoreState :=
  if s.isConnected then
    let created := createTableForMac s mac
    .ok { created.1 with
            tables := insertInto created.1.tables created.2 (batteryRowOf mac data t) }
  else .error "Database not connected"

/-- `storeAntData(macAnt, macTag, distance)` at instant `t`: the row goes
into the table of `macTag`. -/
def storeAntData (s : StoreState) (macAnt macTag : String) (distance : Option Int)
    (t : Int) : Except String StoreState :=
  if s.isConnected then
    let created := createTableForMac s macTag
    .ok { created.1 with
            tables := insertInto created.1.tables created.2 (antRowOf macAnt macTag distance t) }
  else .error "Database not connected"

/-- `storeEnvironmentData(data)` at instant `t`: uses the fixed table
`ENVIRONMENT_DATA`, creating it on first use and adding its name to the
in-memory set — but, unlike `createTableForMac`, inserting no
`biocv_metadata` row. -/
def storeEnvironmentData (s : StoreState) (data : EnvPayload) (t : Int) :
    Except String StoreState :=
  if s.isConnected then
    let tableName := "ENVIRONMENT_DATA"
    let s1 :=
      if tableName ∈ s.createdTables then s
      else
        { s with
            tables :=
              if s.tables.any (fun tb => tb.1 == tableName) then s.tables
              else s.tables ++ [(tableName, [])]
            createdTables := s.createdTables ++ [tableName] }
    .ok { s1 with tables := insertInto s1.tables tableName (envRowOf data t) }
  else .error "Database not connected"

/-- Sorting relation of the read path: `ORDER BY timestamp DESC`, and the
comparator `(a, b) => new Date(b.timestamp) - new Date(a.timestamp)`. -/
def rowLater (a b : Row) : Prop := b.timestamp ≤ a.timestamp

instance : DecidableRel rowLater := fun a b =>
  inferInstanceAs (Decidable (b.timestamp ≤ a.timestamp))

instance : IsTotal Row rowLater := ⟨fun a b => le_total b.timestamp a.timestamp⟩

instance : IsTrans Row rowLater := ⟨fun _ _ _ h1 h2 => le_trans h2 h1⟩

/-- Sort rows most-recent-first. -/
def sortByTimestampDesc (l : List Row) : List Row := List.insertionSort rowLater l

/-- The `WHERE` clause both query functions build: `dataType` filters only
when present and neither empty (falsy in JavaScript) nor `'all'`;
`startDate` / `endDate` are inclusive bounds on `timestamp`. -/
def rowMatches (opts : QueryOptions) (r : Row) : Bool :=
  (match opts.dataType with
   | none => true
   | some dt => if dt == "" then true else if dt == "all" then true else r.data_type == dt) &&
  (match opts.startDate with
   | none => true
   | some sd => decide (sd ≤ r.timestamp)) &&
  (match opts.endDate with
   | none => true
   | some ed => decide (r.timestamp ≤ ed))

/-- `queryData(mac, options)`: one `SELECT` against the table named by the
sanitized key.  When no such table exists the SQL engine rejects the
statement (`no such table`), which surfaces as an error.  Default
`limit = 100`. -/
def queryData (s : StoreState) (mac : String) (opts : QueryOptions) :
    Except String (List Row) :=
  if s.isConnected then
    let tableName := sanitizeMacForTableName mac
    match lookupTable s.tables tableName with
    | none => .error ("no such table: " ++ tableName)
    | some rows =>
      .ok (((sortByTimestampDesc (rows.filter (rowMatches opts)))).take (opts.limit.getD 100))
  else .error "Database not connected"

/-- The per-table `SELECT ... ORDER BY timestamp DESC` (no limit) used by
`queryAllData`. -/
def selectFrom (tabs : List (String × List Row)) (tn : String) (opts : QueryOptions) :
    Except String (List Row) :=
  match lookupTable tabs tn with
  | none => .error ("no such table: " ++ tn)
  | some rows => .ok (sortByTimestampDesc (rows.filter (rowMatches opts)))

/-- The loop of `queryAllData`: query each listed table and concatenate. -/
def collectAll (tabs : List (String × List Row)) (entries : List MetaEntry)
    (opts : QueryOptions) : Except String (List Row) :=
  match entries with
  | [] => .ok []
  | e :: rest =>
    match selectFrom tabs e.table_name opts with
    | .error msg => .error msg
    | .ok rs =>
      match collectAll tabs rest opts with
      | .error msg => .error msg
      | .ok more => .ok (rs ++ more)

/-- `queryAllData(options)`: enumerates the tables from `biocv_metadata`
`WHERE table_name != 'ENVIRONMENT_DATA'`, queries each, merges, re-sorts
globally by timestamp descending and truncates to `limit` (default
1000). -/
def queryAllData (s : StoreState) (opts : QueryOptions) : Except String (List Row) :=
  if s.isConnected then
    match collectAll s.tables
        (s.metadata.filter (fun e => e.table_name != "ENVIRONMENT_DATA")) opts with
    | .error msg => .error msg
    | .ok allResults => .ok ((sortByTimestampDesc allResults).take (opts.limit.getD 1000))
  else .error "Database not connected"

/-- `DELETE FROM tn WHERE created_at < cutoff` applied to the table map. -/
def deleteOld (tabs : List (String × List Row)) (tn : String) (cutoff : Int) :
    List (String × List Row) :=
  tabs.map (fun t =>
    if t.1 == tn then (t.1, t.2.filter (fun r => !decide (r.created_at < cutoff))) else t)

/-- Number of rows such a `DELETE` removes (`result.changes`). -/
def countOld (rows : List Row) (cutoff : Int) : Nat :=
  (rows.filter (fun r => decide (r.created_at < cutoff))).length

/-- The key-less branch of `cleanupOldData`: delete from every table
listed in `biocv_metadata`, summing the per-table deletion counts.  A
listed table missing from the database would make the `DELETE` fail. -/
def cleanupTables (entries : List MetaEntry) (tabs : List (String × List Row))
    (cutoff : Int) : Except String (List (String × List Row) × Nat) :=
  match entries with
  | [] => .ok (tabs, 0)
  | e :: rest =>
    match lookupTable tabs e.table_name with
    | none => .error ("no such table: " ++ e.table_name)
    | some rows =>
      match cleanupTables rest (deleteOld tabs e.table_name cutoff) cutoff with
      | .error msg => .error msg
      | .ok pr => .ok (pr.1, countOld rows cutoff + pr.2)

/-- The effective day count of `cleanupOldData`:
`olderThanDays || this.config.retention_days`.  A `null` argument and the
number `0` are both falsy in JavaScript, so both fall back to the
configured retention. -/
def effectiveDays (olderThanDays : Option Nat) (retention : Nat) : Nat :=
  match olderThanDays with
  | some d => if d = 0 then retention else d
  | none => retention

/-- `cleanupOldData(mac, olderThanDays)` at instant `now`: deletes rows
whose `created_at` lies before `now` minus the effective day count, from
the addressed table (`mac` given) or from every table listed in
`biocv_metadata` (`mac` null).  Returns the updated state and the
deleted-row count. -/
def cleanupOldData (s : StoreState) (mac : Option String) (olderThanDays : Option Nat)
    (now : Int) : Except String (StoreState × Nat) :=
  if s.isConnected then
    let cutoff : Int := now - (effectiveDays olderThanDays s.retentionDays : Int)
    match mac with
    | some m =>
      let tableName := sanitizeMacForTableName m
      match lookupTable s.tables tableName with
      | none => .error ("no such table: " ++ tableName)
      | some rows =>
        .ok ({ s with tables := deleteOld s.tables tableName cutoff }, countOld rows cutoff)
    | none =>
      match cleanupTables s.metadata s.tables cutoff with
      | .error msg => .error msg
      | .ok pr => .ok ({ s with tables := pr.1 }, pr.2)
  else .error "Database not connected"

/-- `dropTable(mac)`: `DROP TABLE IF EXISTS`, delete the metadata row by
table name, and remove the name from the in-memory set. -/
def dropTable (s : StoreState) (mac : String) : Except String StoreState :=
  if s.isConnected then
    let tableName := sanitizeMacForTableName mac
    .ok { s with
            tables := s.tables.filter (fun t => t.1 != tableName)
            metadata := s.metadata.filter (fun e => e.table_name != tableName)
            createdTables := s.createdTables.filter (fun n => n != tableName) }
  else .error "Database not connected"

/-- The invariant "a metadata entry exists if and only if the table name
is marked known in the in-memory set". -/
def KnownMetaInv (s : StoreState) : Prop :=
  ∀ n : String, n ∈ s.createdTables ↔ ∃ e ∈ s.metadata, e.table_name = n

/-- The state right after `initialize()` on a fresh database: connected,
`biocv_metadata` created and empty, no data tables, empty in-memory set
(the constructor starts `createdTables` empty and `initialize` does not
populate it), default configuration (`retention_days` 30,
`auto_create_tables` true). -/
def connectedInit : StoreState :=
  { isConnected := true, autoCreateTables := true, retentionDays := 30,
    createdTables := [], metadata := [], tables := [] }

/-- Replace the row list of the table named `n`, leaving every other
table untouched (used to state frame properties about one table). -/
def setTableRows (tabs : List (String × List Row)) (n : String) (rs : List Row) :
    List (String × List Row) :=
  tabs.map (fun t => if t.1 == n then (t.1, rs) else t)

/-! Concrete inputs used to settle the claims on explicit runs. -/

/-- A sample device key. -/
def macA : String := "AA:BB:CC:DD:EE:FF"

/-- The table name of `macA`. -/
def tnA : String := "AA_BB_CC_DD_EE_FF"

/-- A sensor payload whose `rssi` field is present and equal to `0`. -/
def pldZero : SensorPayload :=
  { rssi := some 0, temperature := none, T := none, weight := none }

/-- A sensor payload with `rssi` present and equal to `1`. -/
def pldOne : SensorPayload :=
  { rssi := some 1, temperature := none, T := none, weight := none }

/-- A sample environment payload. -/
def envPld : EnvPayload :=
  { temperature := some 21, Temperature := none, humidity := some 40, Humidity := none }

/-- A store holding one sensor row for `macA` created at day 25
(configured retention: the default 30 days). -/
def sRetention : StoreState :=
  { connectedInit with
      createdTables := [tnA]
      metadata := [{ table_name := tnA, mac_address := macA }]
      tables := [(tnA, [sensorRowOf macA pldOne 25])] }

/-- The store after one `storeEnvironmentData` call on a fresh store. -/
def sEnvAfter : StoreState :=
  { connectedInit with
      createdTables := ["ENVIRONMENT_DATA"]
      tables := [("ENVIRONMENT_DATA", [envRowOf envPld 9])] }

/-- A fresh store configured with `auto_create_tables: false`. -/
def sNoAuto : StoreState := { connectedInit with autoCreateTables := false }

/-- The store `sNoAuto` after `storeSensorData(macA, pldOne)` at day 5:
the table and its metadata row were created all the same. -/
def sNoAutoAfter : StoreState :=
  { sNoAuto with
      createdTables := [tnA]
      metadata := [{ table_name := tnA, mac_address := macA }]
      tables := [(tnA, [sensorRowOf macA pldOne 5])] }

/-- A store holding two sensor rows for `macA`, inserted with ascending
timestamps 1 and 5. -/
def sTwoRows : StoreState :=
  { connectedInit with
      createdTables := [tnA]
      metadata := [{ table_name := tnA, mac_address := macA }]
      tables := [(tnA, [sensorRowOf macA pldOne 1, sensorRowOf macA pldOne 5])] }

/-- A store holding an old environment row and an old sensor row for
`macA`; only the latter's table is registered in `biocv_metadata`. -/
def sEnvAndMac : StoreState :=
  { connectedInit with
      createdTables := [tnA, "ENVIRONMENT_DATA"]
      metadata := [{ table_name := tnA, mac_address := macA }]
      tables := [("ENVIRONMENT_DATA", [envRowOf envPld 1]), (tnA, [sensorRowOf macA pldOne 1])] }

/-- `sEnvAndMac` after the key-less `cleanupOldData(null, 5)` at day 100:
the sensor row is gone, the environment row is untouched. -/
def sEnvAndMacCleaned : StoreState :=
  { sEnvAndMac with
      tables := [("ENVIRONMENT_DATA", [envRowOf envPld 1]), (tnA, [])] }

/-- A store holding one sensor row for `macA` (used to exercise
`dropTable`). -/
def sOneRow : StoreState :=
  { connectedInit with
      createdTables := [tnA]
      metadata := [{ table_name := tnA, mac_address := macA }]
      tables := [(tnA, [sensorRowOf macA pldOne 1])] }

end StandaloneSQLite

namespace StandaloneSQLite

/-! ## Helper lemmas -/

/-- On MAC-address characters, equal sanitized characters have equal
upper-cased characters. -/
theorem charStep_congr : ∀ c1 ∈ macChars, ∀ c2 ∈ macChars,
    (if c1 = ':' then '_' else c1).toUpper = (if c2 = ':' then '_' else c2).toUpper →
    c1.toUpper = c2.toUpper := by decide

/-- On MAC-address characters, equal upper-cased characters have equal
sanitized characters. -/
theorem charUpper_congr : ∀ c1 ∈ macChars, ∀ c2 ∈ macChars,
    c1.toUpper = c2.toUpper →
    (if c1 = ':' then '_' else c1).toUpper = (if c2 = ':' then '_' else c2).toUpper := by decide

/-- A pointwise congruence on a character set lifts along `List.map`. -/
theorem mapCongrOfChars (f g : Char → Char) (cs : List Char)
    (h : ∀ c1 ∈ cs, ∀ c2 ∈ cs, f c1 = f c2 → g c1 = g c2) :
    ∀ l1 l2 : List Char, (∀ c ∈ l1, c ∈ cs) → (∀ c ∈ l2, c ∈ cs) →
      l1.map f = l2.map f → l1.map g = l2.map g := by
  intro l1
  induction l1 with
  | nil =>
    intro l2 _ _ hm
    cases l2 with
    | nil => rfl
    | cons b bs => simp at hm
  | cons a as ih =>
    intro l2 h1 h2 hm
    cases l2 with
    | nil => simp at hm
    | cons b bs =>
      simp only [List.map_cons, List.cons.injEq] at hm ⊢
      refine ⟨h a (h1 a (List.mem_cons_self a as)) b (h2 b (List.mem_cons_self b bs)) hm.1, ?_⟩
      exact ih bs (fun c hc => h1 c (List.mem_cons_of_mem _ hc))
        (fun c hc => h2 c (List.mem_cons_of_mem _ hc)) hm.2

/-- Overwriting the rows of the table named `m` does not change lookups
of a different name `n`. -/
theorem lookupTable_setTableRows_ne (tabs : List (String × List Row)) (m : String)
    (rs : List Row) (n : String) (h : n ≠ m) :
    lookupTable (setTableRows tabs m rs) n = lookupTable tabs n := by
  induction tabs with
  | nil => rfl
  | cons t ts ih =>
    simp only [setTableRows, List.map_cons, beq_iff_eq] at ih ⊢
    by_cases hm : t.1 = m
    · rw [if_pos hm]
      have hnn : ¬ t.1 = n := fun hh => h ((hh ▸ hm : n = m))
      simp only [lookupTable]
      rw [if_neg hnn, if_neg hnn]
      exact ih
    · rw [if_neg hm]
      simp only [lookupTable]
      by_cases hn : t.1 = n
      · rw [if_pos hn, if_pos hn]
      · rw [if_neg hn, if_neg hn]
        exact ih

/-- `collectAll` only reads the tables its metadata entries name, so
overwriting an unlisted table's rows does not change it. -/
theorem collectAll_setTableRows (tabs : List (String × List Row)) (m : String)
    (rs : List Row) (opts : QueryOptions) :
    ∀ entries : List MetaEntry, (∀ e ∈ entries, e.table_name ≠ m) →
      collectAll (setTableRows tabs m rs) entries opts = collectAll tabs entries opts := by
  intro entries
  induction entries with
  | nil => intro _; rfl
  | cons e es ih =>
    intro h
    have he : e.table_name ≠ m := h e (List.mem_cons_self e es)
    have hrec := ih (fun x hx => h x (List.mem_cons_of_mem _ hx))
    simp only [collectAll, selectFrom, lookupTable_setTableRows_ne tabs m rs e.table_name he,
      hrec]

/-- Deleting old rows from the table named `m` does not change lookups of
a different name `n`. -/
theorem lookupTable_deleteOld_ne (tabs : List (String × List Row)) (m : String)
    (cutoff : Int) (n : String) (h : n ≠ m) :
    lookupTable (deleteOld tabs m cutoff) n = lookupTable tabs n := by
  induction tabs with
  | nil => rfl
  | cons t ts ih =>
    simp only [deleteOld, List.map_cons, beq_iff_eq] at ih ⊢
    by_cases hm : t.1 = m
    · rw [if_pos hm]
      have hnn : ¬ t.1 = n := fun hh => h ((hh ▸ hm : n = m))
      simp only [lookupTable]
      rw [if_neg hnn, if_neg hnn]
      exact ih
    · rw [if_neg hm]
      simp only [lookupTable]
      by_cases hn : t.1 = n
      · rw [if_pos hn, if_pos hn]
      · rw [if_neg hn, if_neg hn]
        exact ih

/-- The metadata-driven cleanup loop leaves every table it does not list
unchanged. -/
theorem cleanupTables_preserves_unlisted (n : String) (entries : List MetaEntry) :
    ∀ tabs cutoff pr, (∀ e ∈ entries, e.table_name ≠ n) →
      cleanupTables entries tabs cutoff = .ok pr →
      lookupTable pr.1 n = lookupTable tabs n := by
  induction entries with
  | nil =>
    intro tabs cutoff pr _ h
    cases h
    rfl
  | cons e es ih =>
    intro tabs cutoff pr hne h
    unfold cleanupTables at h
    split at h
    · cases h
    · split at h
      · cases h
      · cases h
        rename_i rows hrows pr2 hpr2
        have he : e.table_name ≠ n := hne e (List.mem_cons_self e es)
        have hstep := ih (deleteOld tabs e.table_name cutoff) cutoff pr2
          (fun x hx => hne x (List.mem_cons_of_mem _ hx)) hpr2
        calc lookupTable pr2.1 n
            = lookupTable (deleteOld tabs e.table_name cutoff) n := hstep
          _ = lookupTable tabs n := lookupTable_deleteOld_ne tabs e.table_name cutoff n
              (fun hh => he hh.symm)

/-- After filtering a table name out, looking it up yields nothing. -/
theorem lookupTable_filter_self (tabs : List (String × List Row)) (tn : String) :
    lookupTable (tabs.filter (fun t => t.1 != tn)) tn = none := by
  induction tabs with
  | nil => rfl
  | cons t ts ih =>
    by_cases h : t.1 = tn
    · simpa [List.filter_cons, h] using ih
    · simpa [List.filter_cons, h, lookupTable] using ih

/-- Creating an empty table and inserting one row into it yields exactly
that one row, provided no other table bears the name. -/
theorem lookupTable_insertInto_appended (tabs : List (String × List Row)) (tn : String)
    (r : Row) (h : ∀ t ∈ tabs, t.1 ≠ tn) :
    lookupTable (insertInto (tabs ++ [(tn, [])]) tn r) tn = some [r] := by
  induction tabs with
  | nil => simp [insertInto, lookupTable]
  | cons t ts ih =>
    have hh : t.1 ≠ tn := h t (List.mem_cons_self t ts)
    have hrec := ih (fun x hx => h x (List.mem_cons_of_mem _ hx))
    simpa [insertInto, lookupTable, hh] using hrec

/-- `createTableForMac` on a completely fresh key: the table, the
metadata row and the in-memory mark are all added. -/
theorem createTableForMac_fresh (s : StoreState) (mac : String)
    (h1 : sanitizeMacForTableName mac ∉ s.createdTables)
    (h2 : ∀ t ∈ s.tables, t.1 ≠ sanitizeMacForTableName mac)
    (h3 : ∀ e ∈ s.metadata, e.table_name ≠ sanitizeMacForTableName mac) :
    createTableForMac s mac =
      ({ s with
          tables := s.tables ++ [(sanitizeMacForTableName mac, [])]
          metadata := s.metadata ++
            [{ table_name := sanitizeMacForTableName mac, mac_address := mac }]
          createdTables := s.createdTables ++ [sanitizeMacForTableName mac] },
       sanitizeMacForTableName mac) := by
  unfold createTableForMac
  rw [if_neg h1]
  have hany1 : ¬ (s.tables.any (fun t => t.1 == sanitizeMacForTableName mac) = true) := by
    intro hc
    obtain ⟨x, hx, hpx⟩ := List.any_eq_true.mp hc
    exact h2 x hx (beq_iff_eq.mp hpx)
  have hany2 : ¬ (s.metadata.any (fun e => e.table_name == sanitizeMacForTableName mac) = true) := by
    intro hc
    obtain ⟨x, hx, hpx⟩ := List.any_eq_true.mp hc
    exact h3 x hx (beq_iff_eq.mp hpx)
  rw [if_neg hany1, if_neg hany2]

end StandaloneSQLite

namespace StandaloneSQLite

/-! ## Claim theorems -/

/-- Claim C1, counterexample: the two valid keys `"aa:bb:cc:dd:ee:ff"` and
`"AA:BB:CC:DD:EE:FF"` are distinct strings yet receive the same table
name, so the transform is not collision-free over all pairs of distinct
valid keys. -/
theorem sanitizeMac_collides_on_case_variants :
    ValidMac "aa:bb:cc:dd:ee:ff" ∧ ValidMac "AA:BB:CC:DD:EE:FF" ∧
    ("aa:bb:cc:dd:ee:ff" : String) ≠ "AA:BB:CC:DD:EE:FF" ∧
    sanitizeMacForTableName "aa:bb:cc:dd:ee:ff" = sanitizeMacForTableName "AA:BB:CC:DD:EE:FF" := by
  refine ⟨by decide, by decide, by decide, by decide⟩

/-- Claim C1, amended: over valid keys the transform is collision-free up
to case folding — two valid keys whose canonical (upper-cased) forms
differ never receive the same table name. -/
theorem sanitizeMac_collision_free_upto_case (k1 k2 : String)
    (h1 : ValidMac k1) (h2 : ValidMac k2) (hne : macCanon k1 ≠ macCanon k2) :
    sanitizeMacForTableName k1 ≠ sanitizeMacForTableName k2 := by
  intro he
  apply hne
  have hd : k1.data.map (fun c => (if c = ':' then '_' else c).toUpper) =
      k2.data.map (fun c => (if c = ':' then '_' else c).toUpper) :=
    congrArg String.data he
  exact congrArg String.mk
    (mapCongrOfChars _ Char.toUpper macChars charStep_congr _ _ h1 h2 hd)

/-- Witness for the amended C1 theorem at two concrete distinct keys. -/
theorem sanitizeMac_collision_free_upto_case_witness :
    sanitizeMacForTableName "AA:BB:CC:DD:EE:01" ≠ sanitizeMacForTableName "AA:BB:CC:DD:EE:02" :=
  sanitizeMac_collision_free_upto_case "AA:BB:CC:DD:EE:01" "AA:BB:CC:DD:EE:02"
    (by decide) (by decide) (by decide)

/-- Claim C2: the claim describes the intent, but
`olderThanDays || this.config.retention_days` treats the number `0` as
"unspecified".  Concretely: with the default 30-day retention and a row
created at day 25, `cleanupOldData(mac, 0)` at day 30 computes a 30-day
cutoff, deletes nothing and returns 0, although the row was created
before "now". -/
theorem cleanup_zero_days_falls_back_to_retention :
    effectiveDays (some 0) 30 = 30 ∧
    (sensorRowOf macA pldOne 25).created_at < 30 ∧
    cleanupOldData sRetention (some macA) (some 0) 30 = .ok (sRetention, 0) := by
  refine ⟨by decide, by decide, by decide⟩

/-- Claim C3, counterexample: a sensor payload whose `rssi` field is
present with value `0` is stored with `rssi = NULL` — the falsy fallback
`data.rssi || null` maps a legitimate zero to the absent value. -/
theorem storeSensor_zero_rssi_stored_as_null :
    pldZero.rssi = some 0 ∧
    (sensorRowOf macA pldZero 5).rssi = none ∧
    storeSensorData connectedInit macA pldZero 5 =
      .ok { connectedInit with
              createdTables := [tnA]
              metadata := [{ table_name := tnA, mac_address := macA }]
              tables := [(tnA, [sensorRowOf macA pldZero 5])] } := by
  refine ⟨by decide, by decide, by decide⟩

/-- Claim C3, amended: a field absent from the payload is stored as the
explicit absent value (never 0), but a field present with value 0 is
also stored as absent — the extraction does not distinguish the two;
nonzero present values are stored as given. -/
theorem extraction_absent_and_zero_to_null (d : SensorPayload) (b : BatteryPayload)
    (v : Int) (hv : v ≠ 0) :
    sensorRssi { d with rssi := none } = none ∧
    sensorRssi { d with rssi := some 0 } = none ∧
    sensorRssi { d with rssi := some v } = some v ∧
    sensorTemperature { d with temperature := none, T := none } = none ∧
    sensorTemperature { d with temperature := some 0, T := none } = none ∧
    sensorWeight { d with weight := none } = none ∧
    sensorWeight { d with weight := some 0 } = none ∧
    batteryPercentageOf { b with percentage := none, battery_percentage := none } = none ∧
    batteryPercentageOf { b with percentage := some 0, battery_percentage := none } = none ∧
    antDistance none = none ∧
    antDistance (some 0) = none := by
  simp [sensorRssi, sensorTemperature, sensorWeight, batteryPercentageOf, antDistance,
    jsNumOr, hv]

/-- Witness for the amended C3 theorem: a nonzero rssi is stored as-is. -/
theorem extraction_absent_and_zero_to_null_witness :
    sensorRssi { rssi := some 7, temperature := none, T := none, weight := none } = some 7 :=
  (extraction_absent_and_zero_to_null ⟨some 7, none, none, none⟩ ⟨none, none⟩ 7
    (by decide)).2.2.1

/-- Claim C4, counterexample: after storing one (recent, filter-matching)
environment record, the `ENVIRONMENT_DATA` table holds that row, yet
`queryAllData` returns the empty sequence — the environment table is not
part of the scan. -/
theorem queryAll_omits_environment_rows :
    storeEnvironmentData connectedInit envPld 9 = .ok sEnvAfter ∧
    lookupTable sEnvAfter.tables "ENVIRONMENT_DATA" = some [envRowOf envPld 9] ∧
    queryAllData sEnvAfter {} = .ok [] := by
  refine ⟨by decide, by decide, by decide⟩

/-- Claim C4, amended: `queryAllData` scans exactly the tables registered
in `biocv_metadata` other than `ENVIRONMENT_DATA` (which is excluded by
an explicit `WHERE` filter); consequently its result is independent of
the environment table's rows. -/
theorem queryAllData_ignores_environment_table (s : StoreState) (opts : QueryOptions)
    (rs : List Row) :
    queryAllData { s with tables := setTableRows s.tables "ENVIRONMENT_DATA" rs } opts =
      queryAllData s opts := by
  have hent : ∀ e ∈ s.metadata.filter (fun e => e.table_name != "ENVIRONMENT_DATA"),
      e.table_name ≠ "ENVIRONMENT_DATA" := by
    intro e he
    exact bne_iff_ne.mp (List.mem_filter.mp he).2
  simp only [queryAllData]
  rw [collectAll_setTableRows s.tables "ENVIRONMENT_DATA" rs opts _ hent]

/-- Claim C5, counterexample: querying a key with no table on an
initialized store surfaces the SQL engine's "no such table" error rather
than returning an empty sequence. -/
theorem queryData_unknown_key_errors_example :
    queryData connectedInit "AA:BB:CC:DD:EE:FF" {} =
      .error "no such table: AA_BB_CC_DD_EE_FF" := by decide

/-- Claim C5, amended: on a connected store, `queryData` for any key
whose table does not exist propagates the engine error naming the
missing table. -/
theorem queryData_missing_table_is_error (s : StoreState) (mac : String)
    (opts : QueryOptions) (hc : s.isConnected = true)
    (hm : lookupTable s.tables (sanitizeMacForTableName mac) = none) :
    queryData s mac opts = .error ("no such table: " ++ sanitizeMacForTableName mac) := by
  simp [queryData, hc, hm]

/-- Witness for the amended C5 theorem on a fresh store. -/
theorem queryData_missing_table_is_error_witness :
    queryData connectedInit "11:22:33:44:55:66" {} =
      .error ("no such table: " ++ sanitizeMacForTableName "11:22:33:44:55:66") :=
  queryData_missing_table_is_error connectedInit "11:22:33:44:55:66" {} rfl rfl

/-- Claim C6: the claim describes the documented meaning of
`auto_create_tables`, but no operation reads the option.  Concretely:
with `auto_create_tables: false` and no table for the key, a sensor
write succeeds and creates both the table (holding the new row) and its
metadata row instead of failing with `TableNotFound`. -/
theorem store_with_autoCreate_false_still_creates :
    sNoAuto.autoCreateTables = false ∧
    storeSensorData sNoAuto macA pldOne 5 = .ok sNoAutoAfter ∧
    lookupTable sNoAutoAfter.tables tnA = some [sensorRowOf macA pldOne 5] ∧
    sNoAutoAfter.metadata = [{ table_name := tnA, mac_address := macA }] := by
  refine ⟨by decide, by decide, by decide, by decide⟩

/-- Claim C7: whenever `queryAllData` succeeds, its result is sorted by
timestamp descending (most recent first) and no longer than the
requested limit (default 1000). -/
theorem queryAllData_sorted_desc_and_within_limit (s : StoreState) (opts : QueryOptions)
    (res : List Row) (h : queryAllData s opts = .ok res) :
    List.Sorted rowLater res ∧ res.length ≤ opts.limit.getD 1000 := by
  unfold queryAllData at h
  split at h
  · split at h
    · cases h
    · cases h
      constructor
      · exact List.Pairwise.sublist (List.take_sublist _ _)
          (List.sorted_insertionSort rowLater _)
      · exact List.length_take_le _ _
  · cases h

/-- Witness for the C7 theorem on a store whose rows were inserted in
ascending timestamp order. -/
theorem queryAllData_sorted_desc_and_within_limit_witness :
    List.Sorted rowLater [sensorRowOf macA pldOne 5, sensorRowOf macA pldOne 1] ∧
    ([sensorRowOf macA pldOne 5, sensorRowOf macA pldOne 1] : List Row).length ≤
      (({} : QueryOptions).limit.getD 1000) :=
  queryAllData_sorted_desc_and_within_limit sTwoRows {}
    [sensorRowOf macA pldOne 5, sensorRowOf macA pldOne 1] (by decide)

/-- Claim C8, counterexample: two representations of the same MAC address
differing only in the separator character (`-` against `:`) receive
different table names — only `:` is normalized, so the transform is not
invariant under separator variation. -/
theorem sanitizeMac_separator_not_normalized :
    sanitizeMacForTableName "AA-BB-CC-DD-EE-FF" ≠ sanitizeMacForTableName "AA:BB:CC:DD:EE:FF" := by
  decide

/-- Claim C8, amended: the transform is a pure deterministic function and
is invariant under character-case variation of valid keys: two valid
keys with the same canonical (upper-cased) form receive the same table
name.  (It is not invariant under separator variation other than `:`.) -/
theorem sanitizeMac_case_invariant (k1 k2 : String)
    (h1 : ValidMac k1) (h2 : ValidMac k2) (hc : macCanon k1 = macCanon k2) :
    sanitizeMacForTableName k1 = sanitizeMacForTableName k2 := by
  have hd : k1.data.map Char.toUpper = k2.data.map Char.toUpper := congrArg String.data hc
  exact congrArg String.mk
    (mapCongrOfChars Char.toUpper _ macChars charUpper_congr _ _ h1 h2 hd)

/-- Witness for the amended C8 theorem: lower- and upper-case spellings
of one MAC address share a table name. -/
theorem sanitizeMac_case_invariant_witness :
    sanitizeMacForTableName "aa:bb:cc:dd:ee:ff" = sanitizeMacForTableName "AA:BB:CC:DD:EE:FF" :=
  sanitizeMac_case_invariant "aa:bb:cc:dd:ee:ff" "AA:BB:CC:DD:EE:FF"
    (by decide) (by decide) (by decide)

/-- Claim C9: storing environment data never adds a `biocv_metadata` row,
and — provided no metadata entry names `ENVIRONMENT_DATA`, which holds
for every state the store operations produce — a key-less
`cleanupOldData` leaves the environment table's rows unchanged,
regardless of their age and of the requested day count. -/
theorem environment_table_untouched_by_keyless_cleanup (s : StoreState)
    (old : Option Nat) (now : Int)
    (hmeta : ∀ e ∈ s.metadata, e.table_name ≠ "ENVIRONMENT_DATA") :
    (∀ d t s2, storeEnvironmentData s d t = .ok s2 → s2.metadata = s.metadata) ∧
    (∀ s3 n, cleanupOldData s none old now = .ok (s3, n) →
      lookupTable s3.tables "ENVIRONMENT_DATA" = lookupTable s.tables "ENVIRONMENT_DATA") := by
  constructor
  · intro d t s2 h
    unfold storeEnvironmentData at h
    split at h
    · cases h
      by_cases hmem : "ENVIRONMENT_DATA" ∈ s.createdTables <;> simp [hmem]
    · cases h
  · intro s3 n h
    simp only [cleanupOldData] at h
    split at h
    · split at h
      · cases h
      · cases h
        rename_i pr hpr
        exact cleanupTables_preserves_unlisted "ENVIRONMENT_DATA" s.metadata s.tables _ pr
          hmeta hpr
    · cases h

/-- Witness for the C9 theorem: cleaning up a store holding an old
environment row and an old sensor row deletes the sensor row but leaves
the environment table as it was. -/
theorem environment_table_untouched_by_keyless_cleanup_witness :
    lookupTable sEnvAndMacCleaned.tables "ENVIRONMENT_DATA" =
      lookupTable sEnvAndMac.tables "ENVIRONMENT_DATA" :=
  (environment_table_untouched_by_keyless_cleanup sEnvAndMac (some 5) 100
    (by decide)).2 sEnvAndMacCleaned 1 (by decide)

/-- Claim C10: `dropTable` removes the per-key table, its metadata row
and its entry in the in-memory known-tables set; it preserves the
invariant "a metadata entry exists iff the name is marked known"; and a
subsequent sensor write for the key recreates the table (holding exactly
the new row) together with a fresh metadata row. -/
theorem dropTable_clears_state_and_next_write_recreates (s : StoreState) (mac : String)
    (s2 : StoreState) (h : dropTable s mac = .ok s2) :
    lookupTable s2.tables (sanitizeMacForTableName mac) = none ∧
    (∀ e ∈ s2.metadata, e.table_name ≠ sanitizeMacForTableName mac) ∧
    sanitizeMacForTableName mac ∉ s2.createdTables ∧
    (KnownMetaInv s → KnownMetaInv s2) ∧
    (∀ d t s3, storeSensorData s2 mac d t = .ok s3 →
      lookupTable s3.tables (sanitizeMacForTableName mac) = some [sensorRowOf mac d t] ∧
      ∃ e ∈ s3.metadata, e.table_name = sanitizeMacForTableName mac ∧ e.mac_address = mac) := by
  unfold dropTable at h
  split at h
  case isFalse => cases h
  case isTrue hconn =>
  cases h
  have hB : ∀ e ∈ s.metadata.filter (fun e => e.table_name != sanitizeMacForTableName mac),
      e.table_name ≠ sanitizeMacForTableName mac := by
    intro e he
    exact bne_iff_ne.mp (List.mem_filter.mp he).2
  have hT : ∀ t ∈ s.tables.filter (fun t => t.1 != sanitizeMacForTableName mac),
      t.1 ≠ sanitizeMacForTableName mac := by
    intro t ht
    exact bne_iff_ne.mp (List.mem_filter.mp ht).2
  have hC : sanitizeMacForTableName mac ∉
      s.createdTables.filter (fun n => n != sanitizeMacForTableName mac) := by
    intro hmem
    exact bne_iff_ne.mp (List.mem_filter.mp hmem).2 rfl
  refine ⟨lookupTable_filter_self s.tables (sanitizeMacForTableName mac), hB, hC, ?_, ?_⟩
  · intro hinv n
    constructor
    · intro hn
      have hn' := List.mem_filter.mp hn
      obtain ⟨e, he, hen⟩ := (hinv n).mp hn'.1
      exact ⟨e, List.mem_filter.mpr ⟨he, by simpa [hen] using hn'.2⟩, hen⟩
    · intro ⟨e, he, hen⟩
      have he' := List.mem_filter.mp he
      refine List.mem_filter.mpr ⟨(hinv n).mpr ⟨e, he'.1, hen⟩, ?_⟩
      simpa [hen] using he'.2
  · intro d t s3 h3
    simp only [storeSensorData] at h3
    rw [if_pos hconn] at h3
    rw [createTableForMac_fresh _ mac hC hT hB] at h3
    cases h3
    constructor
    · exact lookupTable_insertInto_appended _ _ _ hT
    · refine ⟨{ table_name := sanitizeMacForTableName mac, mac_address := mac }, ?_, rfl, rfl⟩
      exact List.mem_append.mpr (Or.inr (by simp))

/-- Witness for the C10 theorem: dropping the only table of a one-table
store yields the fresh connected state, in which the key's table no
longer exists. -/
theorem dropTable_clears_state_and_next_write_recreates_witness :
    lookupTable connectedInit.tables (sanitizeMacForTableName macA) = none :=
  (dropTable_clears_state_and_next_write_recreates sOneRow macA connectedInit (by decide)).1

end StandaloneSQLite
